import Mathlib

/-!
Verification of the mcstructure-converter NBT wrapper and item generator.

The embedding models binary buffers as lists of byte values (natural numbers
below 256).  The third-party prismarine-nbt encoder is not part of this
repository, so the wrapper functions are parametrised by it: an arbitrary
function from NBT data values and an endianness string to bytes.  In the
deployed environment buffers are bounded by 2 ^ 31 - 1 bytes, so the
Int32 range check of Buffer.writeInt32LE never fires; the model encodes the
value modulo 2 ^ 32 in two-complement little-endian form, which agrees with
the source on that domain.
-/

/-- A binary buffer: one natural number per byte. -/
abbrev Bytes := List Nat

/-- Embeds Buffer.alloc(4) followed by writeInt32LE(v): the four little-endian
bytes of the 32-bit two-complement representation of v. -/
def int32LEBytes (v : Int) : Bytes :=
  let n := (v % 2 ^ 32).toNat
  [n % 2 ^ 8, n / 2 ^ 8 % 2 ^ 8, n / 2 ^ 16 % 2 ^ 8, n / 2 ^ 24 % 2 ^ 8]

/-- Little-endian decoding of the first four bytes of a buffer, used to state
what the size field of the level.dat header holds. -/
def readUInt32LE (b : Bytes) : Nat :=
  b.getD 0 0 + 2 ^ 8 * b.getD 1 0 + 2 ^ 16 * b.getD 2 0 + 2 ^ 24 * b.getD 3 0

/-- fixLevelDat from src/unnamed/part_002: prepends the 8-byte level.dat
header, a 4-byte little-endian file type word (10) followed by a 4-byte
little-endian size word (the byte length of the payload). -/
def fixLevelDat (dat : Bytes) : Bytes :=
  let fileType : Int := 10
  let fileTypeData := int32LEBytes fileType
  let sizeData := int32LEBytes (dat.length : Int)
  fileTypeData ++ sizeData ++ dat

/-- parseStructure from src/unnamed/part_002.  The call
nbt.writeUncompressed(data, little) is delegated to the third-party library,
here an explicit parameter; the mode argument is taken but never used, exactly
as in the source. -/
def parseStructure {α : Type} (writeUncompressed : α → String → Bytes)
    (data : α) (mode : String) (isLevelDat : Bool) : Bytes :=
  let rawData := writeUncompressed data "little"
  if isLevelDat then fixLevelDat rawData else rawData

/-- Modelled from the spec: the third-party writeUncompressed encoder, for
concrete witnesses only.  An NBT data value is represented by its canonical
little-endian encoding, so the encoder is the identity on that encoding. -/
def modelWrite (d : Bytes) (_ : String) : Bytes := d

/-- Modelled from the spec: the third-party nbt.parse used by loadStructure in
src/unnamed/part_005 when the loaded file is a level.dat blob; it skips the
8-byte header and decodes the little-endian payload that follows.  With NBT
data values represented by their encodings, parsing returns the payload. -/
def modelParse (b : Bytes) : Bytes := b.drop 8

/-- A concrete well-formed level.dat blob whose storage-version word is 9:
header [9, 0, 0, 0] (file type), [4, 0, 0, 0] (payload size), then a 4-byte
payload. -/
def exampleLevelDat : Bytes := [9, 0, 0, 0, 4, 0, 0, 0, 10, 1, 2, 3]

/-- Dropping the 8 header bytes of fixLevelDat returns the payload. -/
theorem fixLevelDat_drop_eight (dat : Bytes) :
    (fixLevelDat dat).drop 8 = dat := rfl

/-- Reading back the size word: decoding the four bytes written for a natural
number below 2 ^ 32 returns that number. -/
theorem readUInt32LE_int32LEBytes (n : Nat) (rest : Bytes) (h : n < 2 ^ 32) :
    readUInt32LE (int32LEBytes (n : Int) ++ rest) = n := by
  simp only [int32LEBytes, readUInt32LE, List.cons_append, List.getD_cons_zero,
    List.getD_cons_succ]
  omega

/-- Claim C1: for every NBT data value d and every mode string,
parseStructure(d, mode, true) returns a buffer exactly 8 bytes longer than
the library encoding writeUncompressed(d, little), with those 8 bytes
prepended as a header before the encoded data. -/
theorem C1_parseStructure_leveldat_header {α : Type}
    (writeUncompressed : α → String → Bytes) (d : α) (mode : String) :
    (parseStructure writeUncompressed d mode true).length
        = (writeUncompressed d "little").length + 8 ∧
    (parseStructure writeUncompressed d mode true).drop 8
        = writeUncompressed d "little" := by
  constructor
  · simp only [parseStructure, fixLevelDat, int32LEBytes, if_true,
      List.length_append, List.length_cons, List.length_nil]
    omega
  · rfl

/-- Claim C1 witness: the theorem evaluated at the model encoder and the
concrete data value [1, 2, 3]. -/
theorem C1_parseStructure_leveldat_header_witness :
    (parseStructure modelWrite ([1, 2, 3] : Bytes) "structure" true).length
        = (modelWrite ([1, 2, 3] : Bytes) "little").length + 8 ∧
    (parseStructure modelWrite ([1, 2, 3] : Bytes) "structure" true).drop 8
        = modelWrite ([1, 2, 3] : Bytes) "little" :=
  C1_parseStructure_leveldat_header modelWrite ([1, 2, 3] : Bytes) "structure"

/-- Claim C3: the level.dat patch is pure concatenation: every byte of
fixLevelDat(dat) at offset 8 and beyond equals the corresponding byte of dat,
and only the 8 header bytes are added. -/
theorem C3_fixLevelDat_frame (dat : Bytes) :
    (fixLevelDat dat).drop 8 = dat ∧
    (fixLevelDat dat).length = dat.length + 8 := by
  constructor
  · rfl
  · simp only [fixLevelDat, int32LEBytes, List.length_append, List.length_cons,
      List.length_nil]
    omega

/-- Claim C3 witness: the theorem evaluated at the concrete buffer [7, 8]. -/
theorem C3_fixLevelDat_frame_witness :
    (fixLevelDat ([7, 8] : Bytes)).drop 8 = ([7, 8] : Bytes) ∧
    (fixLevelDat ([7, 8] : Bytes)).length = ([7, 8] : Bytes).length + 8 :=
  C3_fixLevelDat_frame ([7, 8] : Bytes)

/-- Claim C4: when isLevelDat is false the wrapper adds nothing:
parseStructure(d, mode, false) is exactly the library call
writeUncompressed(d, little). -/
theorem C4_parseStructure_thin_wrapper {α : Type}
    (writeUncompressed : α → String → Bytes) (d : α) (mode : String) :
    parseStructure writeUncompressed d mode false
        = writeUncompressed d "little" := rfl

/-- Claim C4 witness: the theorem evaluated at the model encoder and the
concrete data value [4, 5, 6]. -/
theorem C4_parseStructure_thin_wrapper_witness :
    parseStructure modelWrite ([4, 5, 6] : Bytes) "json" false
        = modelWrite ([4, 5, 6] : Bytes) "little" :=
  C4_parseStructure_thin_wrapper modelWrite ([4, 5, 6] : Bytes) "json"

/-- Claim C5: the 8-byte header has a fixed layout: bytes 0 to 3 are the
32-bit little-endian integer 10 and bytes 4 to 7 are the 32-bit little-endian
integer equal to the byte length of dat.  The hypothesis reflects the buffer
bound of the environment, under which the Int32 write is exact. -/
theorem C5_fixLevelDat_header_layout (dat : Bytes) (h : dat.length < 2 ^ 31) :
    (fixLevelDat dat).take 4 = [10, 0, 0, 0] ∧
    ((fixLevelDat dat).drop 4).take 4 = int32LEBytes (dat.length : Int) ∧
    readUInt32LE ((fixLevelDat dat).drop 4) = dat.length := by
  refine ⟨rfl, rfl, ?_⟩
  exact readUInt32LE_int32LEBytes dat.length dat (by omega)

/-- Claim C5 witness: the theorem evaluated at the concrete buffer
[9, 9, 9]. -/
theorem C5_fixLevelDat_header_layout_witness :
    ([9, 9, 9] : Bytes).length < 2 ^ 31 ∧
    ((fixLevelDat ([9, 9, 9] : Bytes)).take 4 = [10, 0, 0, 0] ∧
     ((fixLevelDat ([9, 9, 9] : Bytes)).drop 4).take 4
        = int32LEBytes (([9, 9, 9] : Bytes).length : Int) ∧
     readUInt32LE ((fixLevelDat ([9, 9, 9] : Bytes)).drop 4)
        = ([9, 9, 9] : Bytes).length) :=
  ⟨by decide, C5_fixLevelDat_header_layout ([9, 9, 9] : Bytes) (by decide)⟩

/-- Claim C6: parseStructure never reads its mode argument: any two mode
values give the same result. -/
theorem C6_parseStructure_mode_independent {α : Type}
    (writeUncompressed : α → String → Bytes) (d : α) (isLevelDat : Bool)
    (m1 m2 : String) :
    parseStructure writeUncompressed d m1 isLevelDat
        = parseStructure writeUncompressed d m2 isLevelDat := rfl

/-- Claim C6 witness: the theorem evaluated at the model encoder, the data
value [1], and the two concrete modes structure and json. -/
theorem C6_parseStructure_mode_independent_witness :
    parseStructure modelWrite ([1] : Bytes) "structure" true
        = parseStructure modelWrite ([1] : Bytes) "json" true :=
  C6_parseStructure_mode_independent modelWrite ([1] : Bytes) true
    "structure" "json"

/-- Claim C2 counterexample: a well-formed level.dat blob whose version word
is 9 does not survive the round trip byte for byte.  The model library decodes
the payload after the header and re-encodes it unchanged (the inverse
property, stated as the first two conjuncts: the re-encoded payload is the
byte suffix of the blob, and the size word of the blob matches it), yet
parseStructure with isLevelDat true rewrites the first header word to 10. -/
theorem C2_roundtrip_counterexample :
    modelWrite (modelParse exampleLevelDat) "little" = exampleLevelDat.drop 8 ∧
    readUInt32LE (exampleLevelDat.drop 4) = (exampleLevelDat.drop 8).length ∧
    parseStructure modelWrite (modelParse exampleLevelDat) "structure" true
        ≠ exampleLevelDat := by
  refine ⟨rfl, rfl, ?_⟩
  decide

/-- Claim C2 (amended): assuming the third-party decoder and encoder are
mutually inverse, the round trip restores a structure blob byte for byte; for
a level.dat blob the payload after the 8-byte header is restored byte for
byte, but the header is rebuilt as file type 10 plus recomputed size, so the
whole blob is restored exactly when its original header already had that
form. -/
theorem C2_roundtrip_amended {α : Type} (parse : Bytes → α)
    (write : α → String → Bytes) (mode : String) (b : Bytes) :
    (write (parse b) "little" = b →
      parseStructure write (parse b) mode false = b) ∧
    (write (parse b) "little" = b.drop 8 →
      (parseStructure write (parse b) mode true).drop 8 = b.drop 8 ∧
      parseStructure write (parse b) mode true
          = int32LEBytes 10 ++ int32LEBytes ((b.drop 8).length : Int)
              ++ b.drop 8) := by
  constructor
  · intro h
    simpa [parseStructure] using h
  · intro h
    constructor
    · simp only [parseStructure, if_true]
      rw [h]
      exact fixLevelDat_drop_eight (b.drop 8)
    · simp only [parseStructure, fixLevelDat, if_true]
      rw [h]

/-- Claim C2 witness: the amended theorem evaluated at the model library and
the empty blob, where both inverse hypotheses hold. -/
theorem C2_roundtrip_amended_witness :
    (modelWrite (modelParse []) "little" = ([] : Bytes)) ∧
    parseStructure modelWrite (modelParse []) "structure" false = ([] : Bytes) ∧
    parseStructure modelWrite (modelParse []) "structure" true
        = int32LEBytes 10 ++ int32LEBytes ((([] : Bytes).drop 8).length : Int)
            ++ ([] : Bytes).drop 8 :=
  ⟨rfl,
   (C2_roundtrip_amended modelParse modelWrite "structure" []).1 rfl,
   ((C2_roundtrip_amended modelParse modelWrite "structure" []).2 rfl).2⟩

/-- An enchantment compound from createEnchant in src/unnamed/part_002: a
short id and a short lvl. -/
structure Enchant where
  id : Int
  lvl : Int

/-- createEnchant from src/unnamed/part_002 (the source defaults level to 1;
call sites pass it explicitly here). -/
def createEnchant (id : Int) (level : Int) : Enchant :=
  { id := id, lvl := level }

/-- The display compound inside an item tag: optional custom Name and
optional Lore list, both absent in a fresh item. -/
structure ItemDisplay where
  Name : Option String
  Lore : Option (List String)

/-- The tag compound of an item: display, optional ench list, optional
Unbreakable byte. -/
structure ItemTag where
  display : ItemDisplay
  ench : Option (List Enchant)
  Unbreakable : Option Int

/-- An item compound as built by createItem in src/unnamed/part_002. -/
structure Item where
  Count : Int
  Damage : Int
  Name : String
  Slot : Int
  WasPickedUp : Int
  tag : ItemTag

/-- createItem from src/unnamed/part_002: the default item structure with the
given type identifier. -/
def createItem (typeId : String) : Item :=
  { Count := 1, Damage := 0, Name := typeId, Slot := 0, WasPickedUp := 0,
    tag := { display := { Name := none, Lore := none },
             ench := none, Unbreakable := none } }

/-- MAX_COUNT from src/pages/items.js: the chest capacity. -/
def MAX_COUNT : Nat := 27

/-- In-place update of the element at an index, the effect of the JS
mutation items[index].field = value followed by setItems([...items]); a list
with no such index is returned unchanged. -/
def updateAt {α : Type} : List α → Nat → (α → α) → List α
  | [], _, _ => []
  | x :: xs, 0, f => f x :: xs
  | x :: xs, n + 1, f => x :: updateAt xs n f

/-- addItem from src/pages/items.js: when the list already holds MAX_COUNT
items it shows the max-size error and leaves the list unchanged, otherwise it
appends a fresh empty item.  The boolean records whether the error snackbar
was shown. -/
def addItem (items : List Item) : List Item × Bool :=
  if items.length ≥ MAX_COUNT then (items, true)
  else (items ++ [createItem ""], false)

/-- deleteItem from src/pages/items.js: items.splice(index, 1). -/
def deleteItem (items : List Item) (index : Nat) : List Item :=
  items.eraseIdx index

/-- changeValue from src/pages/items.js.  The value argument is dynamically
typed in the source; the call sites pass a string for the id and name
branches and the number 0 or 1 for the unbreakable branch, reflected here by
a sum.  JS truthiness makes the source store undefined (here none) exactly
for the empty string and for 0. -/
def changeValue (items : List Item) (value : String ⊕ Int) (id : String)
    (index : Nat) : List Item :=
  updateAt items index fun item =>
    let item1 :=
      match value with
      | Sum.inl s => if id = "id" then { item with Name := s } else item
      | Sum.inr _ => item
    let item2 :=
      match value with
      | Sum.inl s =>
          if id = "name" then
            { item1 with tag := { item1.tag with display :=
                { item1.tag.display with
                    Name := if s = "" then none else some s } } }
          else item1
      | Sum.inr _ => item1
    match value with
    | Sum.inr n =>
        if id = "unbreakable" then
          { item2 with tag := { item2.tag with
              Unbreakable := if n = 0 then none else some n } }
        else item2
    | Sum.inl _ => item2

/-- changeLore from src/pages/items.js: stores the lore list, or undefined
(none) when it is empty. -/
def changeLore (items : List Item) (lores : List String) (i : Nat) :
    List Item :=
  updateAt items i fun item =>
    { item with tag := { item.tag with display :=
        { item.tag.display with
            Lore := if lores.length = 0 then none else some lores } } }

/-- changeEnchant from src/pages/items.js: stores the enchantment list, or
undefined (none) when it is empty. -/
def changeEnchant (items : List Item) (enchants : List Enchant) (i : Nat) :
    List Item :=
  updateAt items i fun item =>
    { item with tag := { item.tag with
        ench := if enchants.length = 0 then none else some enchants } }

/-- The useEffect hook of src/pages/items.js that renumbers the Slot field of
every item to its index. -/
def reSlot (items : List Item) : List Item :=
  items.mapIdx fun i item => { item with Slot := (i : Int) }

/-- The item-list states the ItemGenerator page can reach: the initial
single-diamond list, followed by any sequence of the list operations of
src/pages/items.js. -/
inductive Reachable : List Item → Prop where
  | init : Reachable [createItem "minecraft:diamond"]
  | add {s : List Item} : Reachable s → Reachable (addItem s).1
  | deleteStep {s : List Item} (index : Nat) :
      Reachable s → Reachable (deleteItem s index)
  | changeStep {s : List Item} (value : String ⊕ Int) (id : String)
      (index : Nat) : Reachable s → Reachable (changeValue s value id index)
  | loreStep {s : List Item} (lores : List String) (i : Nat) :
      Reachable s → Reachable (changeLore s lores i)
  | enchStep {s : List Item} (enchants : List Enchant) (i : Nat) :
      Reachable s → Reachable (changeEnchant s enchants i)
  | slotStep {s : List Item} : Reachable s → Reachable (reSlot s)

/-- updateAt preserves the length of the list. -/
theorem length_updateAt {α : Type} (l : List α) (i : Nat) (f : α → α) :
    (updateAt l i f).length = l.length := by
  induction l generalizing i with
  | nil => rfl
  | cons x xs ih =>
    cases i with
    | zero => rfl
    | succ n => simp [updateAt, ih]

/-- eraseIdx never lengthens the list. -/
theorem length_eraseIdx_le {α : Type} (l : List α) (i : Nat) :
    (l.eraseIdx i).length ≤ l.length := by
  induction l generalizing i with
  | nil => simp [List.eraseIdx]
  | cons x xs ih =>
    cases i with
    | zero => simp [List.eraseIdx]
    | succ n =>
      simp only [List.eraseIdx, List.length_cons]
      exact Nat.succ_le_succ (ih n)

/-- Every reachable item-list state stays within the chest capacity. -/
theorem reachable_length_le {s : List Item} (h : Reachable s) :
    s.length ≤ MAX_COUNT := by
  induction h with
  | init => simp [MAX_COUNT]
  | @add s _ ih =>
    simp only [addItem]
    split
    · exact ih
    · rename_i hlt
      simp only [List.length_append, List.length_cons, List.length_nil]
      simp only [MAX_COUNT, ge_iff_le, not_le] at hlt ⊢
      omega
  | deleteStep index _ ih =>
    exact le_trans (length_eraseIdx_le _ index) ih
  | changeStep value id index _ ih =>
    simpa [changeValue, length_updateAt] using ih
  | loreStep lores i _ ih =>
    simpa [changeLore, length_updateAt] using ih
  | enchStep enchants i _ ih =>
    simpa [changeEnchant, length_updateAt] using ih
  | slotStep _ ih =>
    simpa [reSlot] using ih

/-- Claim C7: the item list never exceeds 27 items: addItem on a list of
MAX_COUNT or more items reports the error and leaves the list unchanged, and
every reachable state of the item list, starting from the initial one-item
list and closed under all the list operations of the page, has length at
most MAX_COUNT. -/
theorem C7_item_list_bounded :
    (∀ items : List Item,
      items.length ≥ MAX_COUNT → addItem items = (items, true)) ∧
    (∀ s : List Item, Reachable s → s.length ≤ MAX_COUNT) := by
  constructor
  · intro items hge
    simp [addItem, hge]
  · intro s h
    exact reachable_length_le h

/-- Claim C7 witness: a full list of 27 empty items is left unchanged with
the error reported, and the initial state satisfies the bound. -/
theorem C7_item_list_bounded_witness :
    addItem (List.replicate 27 (createItem ""))
        = (List.replicate 27 (createItem ""), true) ∧
    (List.length [createItem "minecraft:diamond"] ≤ MAX_COUNT) :=
  ⟨C7_item_list_bounded.1 (List.replicate 27 (createItem ""))
      (by simp [MAX_COUNT]),
   C7_item_list_bounded.2 [createItem "minecraft:diamond"] Reachable.init⟩
